import Mathlib

/-!
Verification development for the Windsurf-Tool repository.

We shallowly embed the identity-write reconciliation engine:
- `ConfigPersister` (configPersister module): `createEncryptedSessions`,
  `writeToDatabase`, `writeAccountData`, `verifyLoginStatus`,
  `startMonitoring` / monitor tick / `stopMonitoring`, `forceWrite`;
- `AccountSwitcher` (js/accountSwitcher.js): `encryptSessions`, `writeToDB`,
  the credential-acquisition stage and the stale-row purge of
  `switchAccount`, `getCurrentAccount`;
- the Cloudflare worker relay (cloudflare-worker.js): `handleRequest`.

JavaScript values flowing through the store are modelled by a small `Json`
type together with an executable printer (`JSON.stringify`) and parser
(`JSON.parse`).  The SQLite `ItemTable` store is an association list of
`(key, value)` text rows; a read of the whole database file that may fail is
an `Option` over those rows.  JS exceptions are `Except`, JS truthiness of
optional strings is `strTruthy`.
-/

/-- Model of a JavaScript/JSON value as produced and consumed by the engine. -/
inductive Json where
  | null
  | boolv (b : Bool)
  | num (n : Int)
  | str (s : String)
  | arr (elems : List Json)
  | obj (fields : List (String × Json))

/-- Escape of one character inside a JSON string literal
(the subset `JSON.stringify` needs for the values this engine writes). -/
def escChar (c : Char) : String :=
  if c = '"' then "\\\""
  else if c = '\\' then "\\\\"
  else if c = '\n' then "\\n"
  else if c = '\t' then "\\t"
  else if c = '\r' then "\\r"
  else String.singleton c

/-- Escape a whole string for inclusion in JSON text. -/
def escString (s : String) : String :=
  ⟨s.data.foldr (fun c acc => (escChar c).data ++ acc) []⟩

/-- Join a list of strings with a separator. -/
def joinWith (sep : String) : List String → String
  | [] => ""
  | [x] => x
  | x :: y :: xs => x ++ sep ++ joinWith sep (y :: xs)

mutual

/-- Model of `JSON.stringify` on the engine's values. -/
def stringifyJson : Json → String
  | .null => "null"
  | .boolv true => "true"
  | .boolv false => "false"
  | .num n => toString n
  | .str s => "\"" ++ escString s ++ "\""
  | .arr xs => "[" ++ joinWith "," (stringifyList xs) ++ "]"
  | .obj fs => "\x7b" ++ joinWith "," (stringifyFields fs) ++ "\x7d"

/-- Stringify each element of a JSON array. -/
def stringifyList : List Json → List String
  | [] => []
  | x :: xs => stringifyJson x :: stringifyList xs

/-- Stringify each field of a JSON object. -/
def stringifyFields : List (String × Json) → List String
  | [] => []
  | (k, v) :: fs => ("\"" ++ escString k ++ "\":" ++ stringifyJson v) :: stringifyFields fs

end

/-- Skip JSON whitespace. -/
def skipWs : List Char → List Char
  | c :: cs => if c = ' ' ∨ c = '\n' ∨ c = '\t' ∨ c = '\r' then skipWs cs else c :: cs
  | [] => []

/-- Parse the body of a JSON string literal (after the opening quote),
returning the decoded string and the input after the closing quote. -/
def parseStrChars : List Char → Option (String × List Char)
  | [] => none
  | '"' :: rest => some ("", rest)
  | '\\' :: e :: rest =>
    match parseStrChars rest with
    | none => none
    | some (s, r) =>
      if e = '"' then some ("\"" ++ s, r)
      else if e = '\\' then some ("\\" ++ s, r)
      else if e = 'n' then some ("\n" ++ s, r)
      else if e = 't' then some ("\t" ++ s, r)
      else if e = 'r' then some ("\r" ++ s, r)
      else if e = '/' then some ("/" ++ s, r)
      else none
  | c :: rest =>
    match parseStrChars rest with
    | none => none
    | some (s, r) => some (String.singleton c ++ s, r)

/-- Split a leading run of decimal digits from the input. -/
def takeDigits : List Char → (List Char × List Char)
  | [] => ([], [])
  | c :: cs =>
    if c.isDigit then
      let (ds, rest) := takeDigits cs
      (c :: ds, rest)
    else ([], c :: cs)

/-- Numeric value of a digit run. -/
def digitsToNat (ds : List Char) : Nat :=
  ds.foldl (fun a c => a * 10 + (c.toNat - 48)) 0

/-- The `\x7b` character, i.e. an opening curly bracket. -/
def braceOpen : Char := Char.ofNat 123

/-- The `\x7d` character, i.e. a closing curly bracket. -/
def braceClose : Char := Char.ofNat 125

mutual

/-- Fuel-bounded recursive-descent parser for one JSON value. -/
def parseValue : Nat → List Char → Option (Json × List Char)
  | 0, _ => none
  | fuel + 1, input =>
    match skipWs input with
    | [] => none
    | 'n' :: 'u' :: 'l' :: 'l' :: rest => some (.null, rest)
    | 't' :: 'r' :: 'u' :: 'e' :: rest => some (.boolv true, rest)
    | 'f' :: 'a' :: 'l' :: 's' :: 'e' :: rest => some (.boolv false, rest)
    | '"' :: rest =>
      match parseStrChars rest with
      | none => none
      | some (s, r) => some (.str s, r)
    | '-' :: rest =>
      match takeDigits rest with
      | ([], _) => none
      | (ds, r) => some (.num (-(digitsToNat ds : Int)), r)
    | '[' :: rest =>
      (match skipWs rest with
       | ']' :: r => some (.arr [], r)
       | other => match parseElems fuel other with
         | none => none
         | some (xs, r) => some (.arr xs, r))
    | c :: rest =>
      if c = braceOpen then
        match skipWs rest with
        | d :: r =>
          if d = braceClose then some (.obj [], r)
          else
            (match parseFields fuel (d :: r) with
             | none => none
             | some (fs, r') => some (.obj fs, r'))
        | [] => none
      else if c.isDigit then
        match takeDigits (c :: rest) with
        | ([], _) => none
        | (ds, r) => some (.num (digitsToNat ds : Int), r)
      else none

/-- Parse the comma-separated elements of a non-empty JSON array. -/
def parseElems : Nat → List Char → Option (List Json × List Char)
  | 0, _ => none
  | fuel + 1, input =>
    match parseValue fuel input with
    | none => none
    | some (x, rest) =>
      match skipWs rest with
      | ',' :: r =>
        (match parseElems fuel r with
         | none => none
         | some (xs, r') => some (x :: xs, r'))
      | ']' :: r => some ([x], r)
      | _ => none

/-- Parse the comma-separated fields of a non-empty JSON object. -/
def parseFields : Nat → List Char → Option (List (String × Json) × List Char)
  | 0, _ => none
  | fuel + 1, input =>
    match skipWs input with
    | '"' :: rest =>
      (match parseStrChars rest with
       | none => none
       | some (k, r) =>
         match skipWs r with
         | ':' :: r' =>
           (match parseValue fuel r' with
            | none => none
            | some (v, r'') =>
              match skipWs r'' with
              | ',' :: r3 =>
                (match parseFields fuel r3 with
                 | none => none
                 | some (fs, r4) => some ((k, v) :: fs, r4))
              | d :: r3 =>
                if d = braceClose then some ([(k, v)], r3) else none
              | [] => none)
         | _ => none)
    | _ => none

end

/-- Model of `JSON.parse`: returns `none` where the JS call throws. -/
def parseJson (s : String) : Option Json :=
  match parseValue (s.length + 1) s.toList with
  | none => none
  | some (j, rest) => if skipWs rest = [] then some j else none

/-- JS truthiness of an optional string field: `undefined` and `""` are falsy. -/
def strTruthy : Option String → Bool
  | none => false
  | some s => s ≠ ""

/-- Field lookup on a JSON object (property access `j.name`);
`none` models JS `undefined`. -/
def jsonField (j : Json) (name : String) : Option Json :=
  match j with
  | .obj fs => fs.lookup name
  | _ => none

example : parseJson "null" = some Json.null := rfl
example : parseJson "\x7b\"email\":\"a@x.com\"\x7d" =
    some (Json.obj [("email", Json.str "a@x.com")]) := rfl
example : stringifyJson (Json.obj [("email", Json.str "a@x.com")]) =
    "\x7b\"email\":\"a@x.com\"\x7d" := rfl
example : parseJson "not json" = none := rfl

/-- A row of the embedded store's `ItemTable`: `(key TEXT PRIMARY KEY, value TEXT)`. -/
abbrev Row := String × String

/-- Look up the value of a key in the store rows
(`SELECT value FROM ItemTable WHERE key = ?`). -/
def lookupRow (rows : List Row) (key : String) : Option String :=
  match rows with
  | [] => none
  | (k, v) :: rest => if k = key then some v else lookupRow rest key

/-- `INSERT OR REPLACE INTO ItemTable (key, value) VALUES (?, ?)`:
replace the row with this primary key, or append a fresh row. -/
def upsertRow (rows : List Row) (key value : String) : List Row :=
  match rows with
  | [] => [(key, value)]
  | (k, v) :: rest =>
    if k = key then (key, value) :: rest else (k, v) :: upsertRow rest key value

/-- The mutable world the engine touches: the target's store file
(`state.vscdb`, `none` when reading it fails) and the Electron process's
current `userData` path (`app.getPath('userData')`). -/
structure World where
  db : Option (List Row)
  userData : String

/-- The Windsurf data directory as returned by `getWindsurfPaths()` /
`WindsurfPathDetector.getUserDataPath()` (a fixed per-user path; its exact
text is irrelevant to the claims). -/
def windsurfUserDataPath : String := "~/Library/Application Support/Windsurf"

/-- A JavaScript value passed to the store upsert operations
(`writeToDB` / `writeToDatabase`).  `jsNull` is the JS `null`,
`buffer` a Node `Buffer`, `objv` a plain structured object,
`strv` a raw string. -/
inductive DBValue where
  | jsNull
  | buffer (bytes : List Nat)
  | objv (fields : List (String × Json))
  | strv (s : String)

/-- The sessions row key
`secret://{"extensionId":"codeium.windsurf","key":"windsurf_auth.sessions"}`. -/
def sessionsKey : String :=
  "secret://\x7b\"extensionId\":\"codeium.windsurf\",\"key\":\"windsurf_auth.sessions\"\x7d"

/-- `Buffer` marshaling: `JSON.stringify({type:'Buffer', data:[...bytes]})`. -/
def bufferJson (bytes : List Nat) : Json :=
  Json.obj [("type", Json.str "Buffer"), ("data", Json.arr (bytes.map fun b => Json.num b))]

/-- `ConfigPersister.writeToDatabase(key, value)` (part_000 lines 126-168).
Reads the whole store file, marshals the value to text
(`Buffer` → tagged JSON, object → `JSON.stringify` — note JS
`typeof null === 'object'`, so a `null` value serializes to the literal
text `"null"` — string → unchanged), upserts one row and writes the file
back.  Every error is caught and turned into a `false` return, leaving the
store as it was; `ioOk` tells whether the final `fs.writeFile` succeeds. -/
def ConfigPersister.writeToDatabase (key : String) (value : DBValue) (ioOk : Bool)
    (w : World) : Bool × World :=
  match w.db with
  | none => (false, w)
  | some rows =>
    let finalValue : String :=
      match value with
      | .buffer bs => stringifyJson (bufferJson bs)
      | .jsNull => stringifyJson Json.null
      | .objv fs => stringifyJson (Json.obj fs)
      | .strv s => s
    if ioOk then (true, { w with db := some (upsertRow rows key finalValue) })
    else (false, w)

/-- `AccountSwitcher.writeToDB(key, value)` (accountSwitcher.js lines
395-454).  Unlike the persister's twin, it first rejects `null`/`undefined`
values with a thrown error, and double-checks that `JSON.stringify` of an
object did not produce the text `"null"`; all errors are re-thrown
(`Except.error`), leaving the store unchanged. -/
def AccountSwitcher.writeToDB (key : String) (value : DBValue) (ioOk : Bool)
    (w : World) : Except String Unit × World :=
  match value with
  | .jsNull => (.error ("Cannot write null/undefined value to key: " ++ key), w)
  | v =>
    match w.db with
    | none => (.error "readFile failed", w)
    | some rows =>
      let finalValue : Except String String :=
        match v with
        | .buffer bs => .ok (stringifyJson (bufferJson bs))
        | .objv fs =>
          let fv := stringifyJson (Json.obj fs)
          if fv = "null" then .error ("JSON.stringify returned \"null\" for key: " ++ key)
          else .ok fv
        | .strv s => .ok s
        | .jsNull => .error ("Cannot write null/undefined value to key: " ++ key)
      match finalValue with
      | .error e => (.error e, w)
      | .ok fv =>
        if ioOk then (.ok (), { w with db := some (upsertRow rows key fv) })
        else (.error "writeFile failed", w)

example :
    ConfigPersister.writeToDatabase "k" .jsNull true { db := some [], userData := "u" } =
      (true, { db := some [("k", "null")], userData := "u" }) := rfl

example :
    (AccountSwitcher.writeToDB "k" .jsNull true { db := some [], userData := "u" }).2.db =
      some [] := rfl

/-- The account object the persister receives (`accountData` built in
`switchAccount`, possibly enriched with Firebase tokens). -/
structure PAccount where
  email : String
  name : String
  apiKey : String
  apiServerUrl : String
  idToken : Option String
  accessToken : Option String
  refreshToken : Option String

/-- Data remembered after a successful write round
(`this.lastWrittenData = { email, name, timestamp }`; the timestamp is
never compared and is omitted). -/
structure LastWritten where
  email : String
  name : String

/-- Instance state of a `ConfigPersister` object (its constructor sets
`isMonitoring = false`, `lastWrittenData = null`, `writeCount = 0`). -/
structure PState where
  isMonitoring : Bool
  lastWritten : Option LastWritten
  writeCount : Nat

/-- The state a freshly constructed `new ConfigPersister()` starts in. -/
def PState.fresh : PState :=
  { isMonitoring := false, lastWritten := none, writeCount := 0 }

/-- The external capabilities one `writeAccountData` round consumes:
the fresh UUIDs it draws, the `safeStorage.encryptString` capability
(whose result depends on the plaintext and on the current `userData`
context; `none` models a thrown encryption error), the Firebase token
exchange outcome, and whether each of the four row writes' file I/O
succeeds. -/
structure WriteEnv where
  sessionId : String
  teamId : String
  installId : String
  encryptFn : String → String → Option (List Nat)
  firebase : Option (String × String)
  io1 : Bool
  io2 : Bool
  io3 : Bool
  io4 : Bool

/-- `ConfigPersister.createEncryptedSessions(account)` (part_000 lines
69-121).  Temporarily redirects the process `userData` path to the
Windsurf data directory, picks the token (`idToken`, else `accessToken`,
else the API key), builds the sessions array, encrypts its JSON text under
the redirected context, and restores the original `userData` in a
`finally` block on success and failure alike. -/
def ConfigPersister.createEncryptedSessions (acc : PAccount) (sessionId : String)
    (encryptFn : String → String → Option (List Nat)) (w : World) :
    Except String (List Nat) × World :=
  let originalUserData := w.userData
  let w1 : World := { w with userData := windsurfUserDataPath }
  let tokenToUse :=
    if strTruthy acc.idToken then acc.idToken.getD acc.apiKey
    else if strTruthy acc.accessToken then acc.accessToken.getD acc.apiKey
    else acc.apiKey
  let sessionsData : Json :=
    Json.arr [Json.obj
      [("id", Json.str sessionId),
       ("accessToken", Json.str tokenToUse),
       ("account", Json.obj [("label", Json.str acc.name), ("id", Json.str acc.name)]),
       ("scopes", Json.arr [])]]
  let jsonString := stringifyJson sessionsData
  let result := encryptFn jsonString w1.userData
  let w2 : World := { w1 with userData := originalUserData }
  match result with
  | some encrypted => (.ok encrypted, w2)
  | none => (.error "encryptString failed", w2)

/-- `AccountSwitcher.encryptSessions(sessionsData)` (accountSwitcher.js
lines 372-390).  Redirects `userData` to the Windsurf data directory,
encrypts `JSON.stringify(sessionsData)` under that context, and restores
the original `userData` in a `finally` block whether the encryption call
returns or throws. -/
def AccountSwitcher.encryptSessions (sessionsData : Json)
    (encryptFn : String → String → Option (List Nat)) (w : World) :
    Except String (List Nat) × World :=
  let originalUserData := w.userData
  let w1 : World := { w with userData := windsurfUserDataPath }
  let jsonString := stringifyJson sessionsData
  let result := encryptFn jsonString w1.userData
  let w2 : World := { w1 with userData := originalUserData }
  match result with
  | some encrypted => (.ok encrypted, w2)
  | none => (.error "encryptString failed", w2)

/-- The Firebase-token prefetch at the top of `writeAccountData` (part_000
lines 217-227): when the account has neither `idToken` nor `accessToken`
but has a `refreshToken`, fetch both; a fetch failure is caught and the
account is left as it was. -/
def prefetchTokens (acc : PAccount) (firebase : Option (String × String)) : PAccount :=
  if ¬ strTruthy acc.idToken ∧ ¬ strTruthy acc.accessToken ∧ strTruthy acc.refreshToken then
    match firebase with
    | some (idTok, accTok) => { acc with idToken := some idTok, accessToken := some accTok }
    | none => acc
  else acc

/-- The default API server URL used when the account carries none. -/
def defaultServerUrl : String := "https://server.self-serve.windsurf.com"

/-- The `windsurfAuthStatus` record written by `writeAccountData`. -/
def authStatusJson (acc : PAccount) (teamId : String) : List (String × Json) :=
  [("name", Json.str acc.name),
   ("apiKey", Json.str acc.apiKey),
   ("email", Json.str acc.email),
   ("teamId", Json.str teamId),
   ("planName", Json.str "Pro")]

/-- The `codeium.windsurf` configuration record written by
`writeAccountData` (`account.apiServerUrl || default` — JS `||` falls back
on the empty string too). -/
def codeiumConfigJson (acc : PAccount) (installId : String) : List (String × Json) :=
  [("codeium.installationId", Json.str installId),
   ("apiServerUrl", Json.str (if acc.apiServerUrl = "" then defaultServerUrl
                              else acc.apiServerUrl)),
   ("codeium.hasOneTimeUpdatedUnspecifiedMode", Json.boolv true)]

/-- `ConfigPersister.writeAccountData(account)` (part_000 lines 212-270).
Optionally prefetches Firebase tokens, encrypts the sessions record, then
performs the four row writes — whose boolean results are discarded — and
finally increments `writeCount`, records `lastWrittenData` and returns
`true`.  The only path to `false` is a thrown error, i.e. a failed
encryption; failed row writes are swallowed inside `writeToDatabase`. -/
def ConfigPersister.writeAccountData (acc : PAccount) (env : WriteEnv)
    (s : PState) (w : World) : Bool × PState × World :=
  let acc' := prefetchTokens acc env.firebase
  match ConfigPersister.createEncryptedSessions acc' env.sessionId env.encryptFn w with
  | (.error _, w1) => (false, s, w1)
  | (.ok encrypted, w1) =>
    let w2 := (ConfigPersister.writeToDatabase sessionsKey (.buffer encrypted) env.io1 w1).2
    let w3 := (ConfigPersister.writeToDatabase "windsurfAuthStatus"
        (.objv (authStatusJson acc' env.teamId)) env.io2 w2).2
    let w4 := (ConfigPersister.writeToDatabase "codeium.windsurf"
        (.objv (codeiumConfigJson acc' env.installId)) env.io3 w3).2
    let w5 := (ConfigPersister.writeToDatabase "codeium.windsurf-windsurf_auth"
        (.strv acc'.name) env.io4 w4).2
    let s' : PState := { s with writeCount := s.writeCount + 1,
                                lastWritten := some { email := acc'.email, name := acc'.name } }
    (true, s', w5)

/-- The string value of a JSON object's `email` property, when it is a
string (JS `===` against a string is false for anything else). -/
def emailOf (j : Json) : Option String :=
  match jsonField j "email" with
  | some (.str s) => some s
  | _ => none

/-- Whether a parsed value is JS `null` (property access on it throws). -/
def isJsNull : Json → Bool
  | .null => true
  | _ => false

/-- Result of `verifyLoginStatus`: the JS function resolves to
`{success, authStatus?}` (or `{success:false, error}` from its catch). -/
structure VerifyResult where
  success : Bool
  authStatus : Option Json

/-- `ConfigPersister.verifyLoginStatus()` (part_000 lines 275-315).
Re-reads the store file, looks up the `windsurfAuthStatus` row and parses
it; when the parsed value is JS `null` the subsequent property access
throws, landing in the catch.  With a remembered `lastWrittenData` the
check succeeds only when the row's email equals the remembered one;
without it any parsed row counts as success. -/
def ConfigPersister.verifyLoginStatus (s : PState) (w : World) : VerifyResult :=
  match w.db with
  | none => { success := false, authStatus := none }
  | some rows =>
    match lookupRow rows "windsurfAuthStatus" with
    | none => { success := false, authStatus := none }
    | some value =>
      match parseJson value with
      | none => { success := false, authStatus := none }
      | some j =>
        if isJsNull j then { success := false, authStatus := none }
        else
          match s.lastWritten with
          | some lw =>
            if emailOf j = some lw.email then { success := true, authStatus := some j }
            else { success := false, authStatus := some j }
          | none => { success := true, authStatus := some j }

/-- `ConfigPersister.forceWrite(account, times, delay)` (part_000 lines
401-427): the loop body — run `writeAccountData` once per iteration,
ignoring whether it succeeded, and count how many times it was invoked. -/
def ConfigPersister.forceWriteLoop (acc : PAccount) (envs : Nat → WriteEnv) :
    Nat → Nat → PState → World → Nat × PState × World
  | 0, calls, s, w => (calls, s, w)
  | n + 1, calls, s, w =>
    let r := ConfigPersister.writeAccountData acc (envs calls) s w
    ConfigPersister.forceWriteLoop acc envs n (calls + 1) r.2.1 r.2.2

/-- `ConfigPersister.forceWrite(account, times, delay)` (part_000 lines
401-427).  Performs `times` iterations of `writeAccountData` (a failure
only logs; the loop never breaks), then runs one final
`verifyLoginStatus` and returns
`finalVerify.success && finalVerify.authStatus.email === account.email`.
Besides the boolean it returns the number of `writeAccountData` calls made
and the final persister/world state. -/
def ConfigPersister.forceWrite (acc : PAccount) (times : Nat) (envs : Nat → WriteEnv)
    (s : PState) (w : World) : Bool × Nat × PState × World :=
  let r := ConfigPersister.forceWriteLoop acc envs times 0 s w
  let finalVerify := ConfigPersister.verifyLoginStatus r.2.1 r.2.2
  let ok := finalVerify.success &&
    (match finalVerify.authStatus with
     | some j => decide (emailOf j = some acc.email)
     | none => false)
  (ok, r.1, r.2.1, r.2.2)

/-- One scheduled monitor run: the persister object state, the closure's
consecutive-failure counter `retryCount`, and whether the interval timer
is still armed. -/
structure MonState where
  p : PState
  retryCount : Nat
  active : Bool

/-- `ConfigPersister.stopMonitoring()` (part_000 lines 387-396): clear the
interval timer and drop the `isMonitoring` flag. -/
def ConfigPersister.stopMonitoring (ms : MonState) : MonState :=
  { ms with active := false, p := { ms.p with isMonitoring := false } }

/-- What happens around one timer tick: first an (adversarial) external
writer may overwrite the `windsurfAuthStatus` row with some raw text, then
the tick body runs — if the timer is still armed. -/
structure TickEnv where
  overwrite : Option String
  wenv : WriteEnv

/-- Apply the external writer's pre-tick overwrite to the store. -/
def applyOverwrite (ov : Option String) (w : World) : World :=
  match ov, w.db with
  | some v, some rows => { w with db := some (upsertRow rows "windsurfAuthStatus" v) }
  | _, _ => w

/-- The drift test of the monitor callback (part_000 lines 345-348):
`!verifyResult.success || (verifyResult.authStatus &&
verifyResult.authStatus.email !== account.email)`. -/
def ConfigPersister.driftCond (acc : PAccount) (p : PState) (w : World) : Bool :=
  let verifyResult := ConfigPersister.verifyLoginStatus p w
  !verifyResult.success ||
    (match verifyResult.authStatus with
     | some j => decide (emailOf j ≠ some acc.email)
     | none => false)

/-- The `setInterval` callback of `ConfigPersister.startMonitoring`
(part_000 lines 342-379).  Verify the login status; on drift (verification
failed, or the row's email differs from the expected account's) re-run the
full write sequence: success resets `retryCount` to `0`, failure
increments it and — once it reaches `maxRetries` — calls
`stopMonitoring()`; without drift `retryCount` resets to `0`.  A cleared
timer means the callback no longer runs at all. -/
def ConfigPersister.monitorTick (acc : PAccount) (maxRetries : Nat)
    (ms : MonState) (w : World) (env : TickEnv) : MonState × World :=
  let w0 := applyOverwrite env.overwrite w
  if ¬ ms.active then (ms, w0)
  else
    let drift : Bool := ConfigPersister.driftCond acc ms.p w0
    if drift then
      let r := ConfigPersister.writeAccountData acc env.wenv ms.p w0
      if r.1 then ({ ms with p := r.2.1, retryCount := 0 }, r.2.2)
      else
        let rc := ms.retryCount + 1
        if rc ≥ maxRetries then
          (ConfigPersister.stopMonitoring { ms with p := r.2.1, retryCount := rc }, r.2.2)
        else ({ ms with p := r.2.1, retryCount := rc }, r.2.2)
    else ({ ms with retryCount := 0 }, w0)

/-- Run a sequence of monitor ticks. -/
def ConfigPersister.runTicks (acc : PAccount) (maxRetries : Nat) :
    MonState → World → List TickEnv → MonState × World
  | ms, w, [] => (ms, w)
  | ms, w, env :: rest =>
    let r := ConfigPersister.monitorTick acc maxRetries ms w env
    ConfigPersister.runTicks acc maxRetries r.1 r.2 rest

/-- The observable immediate effects of a `startMonitoring` call. -/
inductive StartOutcome where
  | alreadyActive
  | started

/-- `ConfigPersister.startMonitoring(account, options)` up to the point the
interval timer is installed (part_000 lines 320-382).  When
`this.isMonitoring` is already set it logs a warning and plainly returns —
no exception, no write, no timer.  Otherwise it raises the flag, zeroes
`writeCount`, performs one immediate `writeAccountData` and arms the
timer.  The returned boolean says whether a timer was scheduled. -/
def ConfigPersister.startMonitoring (acc : PAccount) (env : WriteEnv)
    (s : PState) (w : World) :
    Except String StartOutcome × PState × World × Bool :=
  if s.isMonitoring then (.ok .alreadyActive, s, w, false)
  else
    let s1 : PState := { s with isMonitoring := true, writeCount := 0 }
    let r := ConfigPersister.writeAccountData acc env s1 w
    (.ok .started, r.2.1, r.2.2, true)

/-- The body of `AccountSwitcher.getCurrentAccount()`'s `try` block
(accountSwitcher.js lines 921-946): read the store file, select the
`windsurfAuthStatus` row, and `JSON.parse` it; a missing row returns
`null`, a failed read or parse throws. -/
def AccountSwitcher.getCurrentAccountTry (w : World) : Except String (Option Json) :=
  match w.db with
  | none => .error "readFile failed"
  | some rows =>
    match lookupRow rows "windsurfAuthStatus" with
    | none => .ok none
    | some value =>
      match parseJson value with
      | none => .error "JSON.parse failed"
      | some j => .ok (some j)

/-- `AccountSwitcher.getCurrentAccount()` (accountSwitcher.js lines
921-946): the surrounding `catch` converts every thrown error into a
`null` return.  The function only reads; the returned world is the input
world. -/
def AccountSwitcher.getCurrentAccount (w : World) : Option Json × World :=
  match AccountSwitcher.getCurrentAccountTry w with
  | .ok r => (r, w)
  | .error _ => (none, w)

/-- Fuel-bounded SQLite `LIKE` matcher (case-insensitive for ASCII;
`%` matches any sequence, `_` any single character).  Each step shortens
pattern or input, so `ps.length + cs.length + 1` fuel always suffices. -/
def likeMatchF : Nat → List Char → List Char → Bool
  | 0, _, _ => false
  | fuel + 1, ps, cs =>
    match ps, cs with
    | [], [] => true
    | [], _ :: _ => false
    | '%' :: ps', rest =>
      likeMatchF fuel ps' rest ||
        (match rest with
         | [] => false
         | _ :: cs' => likeMatchF fuel ('%' :: ps') cs')
    | '_' :: ps', _ :: cs' => likeMatchF fuel ps' cs'
    | '_' :: _, [] => false
    | p :: ps', c :: cs' => (p.toLower = c.toLower) && likeMatchF fuel ps' cs'
    | _ :: _, [] => false

/-- `key LIKE pattern` on strings. -/
def likeMatch (pattern key : String) : Bool :=
  likeMatchF (pattern.length + key.length + 1) pattern.toList key.toList

/-- The legacy per-account key pattern purged by `switchAccount` step 5.1. -/
def stalePattern : String := "windsurf_auth-%"

/-- The stale-row purge of `AccountSwitcher.switchAccount` (accountSwitcher.js
lines 655-672): `SELECT key FROM ItemTable WHERE key LIKE 'windsurf_auth-%'`,
then `DELETE FROM ItemTable WHERE key = ?` for each collected key (the file
is rewritten only when at least one key matched, which leaves the row set
the same either way).  Returns the number of deleted keys and the remaining
rows. -/
def AccountSwitcher.purgeStaleRows (rows : List Row) : Nat × List Row :=
  let matched := rows.filter fun r => likeMatch stalePattern r.1
  (matched.length, rows.filter fun r => !likeMatch stalePattern r.1)

example : likeMatch stalePattern "windsurf_auth-old@x.com" = true := rfl
example : likeMatch stalePattern "windsurfAuthStatus" = false := rfl
example : likeMatch stalePattern "WINDSURFXAUTH-abc" = true := rfl

/-- The account object `switchAccount` receives from the accounts file. -/
structure SAccount where
  email : String
  apiKey : Option String
  name : Option String
  apiServerUrl : Option String
  refreshToken : Option String

/-- A remote call the credential-acquisition stage can issue. -/
inductive RemoteCall where
  | tokenRefresh
  | registration
deriving DecidableEq

/-- Remote collaborator outcomes for the credential stage:
`getAccessToken` (POST to the relay) and `getApiKey`
(POST to the registration endpoint, a function of the token). -/
structure CredEnv where
  tokenResult : Except String String
  registerFn : String → Except String (String × String × String)

/-- Step 3 of `AccountSwitcher.switchAccount` (accountSwitcher.js lines
561-622).  When the account already carries truthy `apiKey`, `name` and
`apiServerUrl`, these are used as-is and no request is made; otherwise a
missing `refreshToken` is fatal, and else `getAccessToken` then
`getApiKey` are called in sequence.  Returns the `(apiKey, name,
apiServerUrl)` triple together with the list of remote calls issued. -/
def AccountSwitcher.acquireCredentials (acc : SAccount) (env : CredEnv) :
    Except String ((String × String × String) × List RemoteCall) :=
  if strTruthy acc.apiKey && strTruthy acc.name && strTruthy acc.apiServerUrl then
    .ok ((acc.apiKey.getD "", acc.name.getD "", acc.apiServerUrl.getD ""), [])
  else if !strTruthy acc.refreshToken then
    .error "账号缺少 refreshToken 和 apiKey，无法切换"
  else
    match env.tokenResult with
    | .error e => .error e
    | .ok accessToken =>
      match env.registerFn accessToken with
      | .error e => .error e
      | .ok (apiKey, name, apiServerUrl) =>
        .ok ((apiKey, name, apiServerUrl), [.tokenRefresh, .registration])

/-- The body of a POST request reaching the worker, after Cloudflare's
routing: either form-encoded with the API key in the URL query, or a JSON
body whose parse may throw (`.error (message, stack)`). -/
inductive WBody where
  | formBody (urlKey grantType refreshToken : Option String)
  | jsonBody (parsed : Except (String × String)
      (Option String × Option String × Option String))

/-- Extract `(grant_type, refresh_token, api_key)` from the request
(cloudflare-worker.js lines 29-57). -/
def Worker.extractParams :
    WBody → Except (String × String) (Option String × Option String × Option String)
  | .formBody urlKey gt rt => .ok (gt, rt, urlKey)
  | .jsonBody parsed => parsed

/-- A worker response:HTTP status, JSON body, and whether the permissive
`Access-Control-Allow-Origin: *` header is present. -/
structure WResponse where
  status : Nat
  body : Json
  corsStar : Bool

/-- `handleRequest` on a POST request (cloudflare-worker.js lines 28-121),
paired with whether the upstream Firebase endpoint was contacted.
`upstream` is the outcome of `fetch` + `response.json()`:
`.ok (status, data)` passes the upstream status and JSON body through,
`.error (message, stack)` models a thrown network/parse error, which the
catch turns into a 500 with the error's message and stack. -/
def Worker.handleRequest (body : WBody)
    (upstream : Except (String × String) (Nat × Json)) : WResponse × Bool :=
  match Worker.extractParams body with
  | .error (m, stack) =>
    ({ status := 500,
       body := Json.obj [("error", Json.str m), ("stack", Json.str stack)],
       corsStar := true }, false)
  | .ok (grant_type, refresh_token, api_key) =>
    if !strTruthy api_key then
      ({ status := 400, body := Json.obj [("error", Json.str "Missing API key")],
         corsStar := true }, false)
    else if !strTruthy grant_type || !strTruthy refresh_token then
      ({ status := 400,
         body := Json.obj [("error", Json.str "Missing grant_type or refresh_token")],
         corsStar := true }, false)
    else
      match upstream with
      | .ok (st, data) => ({ status := st, body := data, corsStar := true }, true)
      | .error (m, stack) =>
        ({ status := 500,
           body := Json.obj [("error", Json.str m), ("stack", Json.str stack)],
           corsStar := true }, true)

/-! ## Concrete fixtures used by witnesses and counterexamples -/

/-- A sample target account. -/
def accB : PAccount :=
  { email := "b@x.com", name := "B", apiKey := "key-b",
    apiServerUrl := "https://srv", idToken := none, accessToken := none,
    refreshToken := none }

/-- A write environment where encryption and every row write succeed. -/
def okEnv : WriteEnv :=
  { sessionId := "sid", teamId := "tid", installId := "iid",
    encryptFn := fun _ _ => some [1, 2, 3], firebase := none,
    io1 := true, io2 := true, io3 := true, io4 := true }

/-- A write environment where the encryption call throws. -/
def encFailEnv : WriteEnv :=
  { okEnv with encryptFn := fun _ _ => none }

/-- A write environment where encryption succeeds but every row write's
file I/O fails. -/
def noIoEnv : WriteEnv :=
  { okEnv with io1 := false, io2 := false, io3 := false, io4 := false }

/-- A world with an empty, readable store. -/
def w0 : World := { db := some [], userData := "orig" }

/-! ## C7 — the stale-row purge is idempotent -/

/-- C7: running the stale-row purge (`DELETE` of every key matching
`windsurf_auth-%`) a second time immediately after a first run finds zero
matching rows and leaves the store in exactly the state the first run
produced. -/
theorem C7_purge_idempotent (rows : List Row) :
    (AccountSwitcher.purgeStaleRows (AccountSwitcher.purgeStaleRows rows).2).1 = 0 ∧
    (AccountSwitcher.purgeStaleRows (AccountSwitcher.purgeStaleRows rows).2).2 =
      (AccountSwitcher.purgeStaleRows rows).2 := by
  unfold AccountSwitcher.purgeStaleRows
  refine ⟨?_, ?_⟩
  · simp [List.filter_filter]
  · simp [List.filter_filter]

/-! ## C3 — null values and the upsert entry points -/

/-- C3 counterexample: the claim says every upsert entry point rejects a
`null` value with an error and performs no write.  But
`ConfigPersister.writeToDatabase` has no such guard: handed a `null` value
it reports success and writes the literal text `"null"` as the row value
(JS `typeof null === 'object'` sends `null` through `JSON.stringify`). -/
theorem C3_counterexample :
    ConfigPersister.writeToDatabase "windsurfAuthStatus" .jsNull true w0 =
      (true, { db := some [("windsurfAuthStatus", "null")], userData := "orig" }) := rfl

/-- C3 amended: the null-value guard holds for the
`AccountSwitcher.writeToDB` entry point only — there a `null` value raises
the invalid-value error and the store is left unchanged —
while `ConfigPersister.writeToDatabase` writes the literal text `"null"`
(see the counterexample). -/
theorem C3_writeToDB_rejects_null (key : String) (ioOk : Bool) (w : World) :
    AccountSwitcher.writeToDB key .jsNull ioOk w =
      (.error ("Cannot write null/undefined value to key: " ++ key), w) := rfl

/-! ## C4 — second startMonitoring call -/

/-- C4 counterexample: with a monitor already active, `startMonitoring`
does not raise an `AlreadyMonitoring` error — it logs and plainly returns
(`Except.ok`), so the claim's "rejected with an AlreadyMonitoring error"
is false on the code. -/
theorem C4_counterexample :
    (ConfigPersister.startMonitoring accB okEnv
        { isMonitoring := true, lastWritten := none, writeCount := 3 } w0).1 =
      Except.ok StartOutcome.alreadyActive := rfl

/-- C4 amended: while `isMonitoring` is set, a second `startMonitoring`
call is a silent no-op rather than an error: it returns normally without
throwing, performs no write (the world, including the store, is
untouched), schedules no timer, and leaves the persister state
unchanged. -/
theorem C4_second_start_is_noop (acc : PAccount) (env : WriteEnv)
    (s : PState) (w : World) (h : s.isMonitoring = true) :
    ConfigPersister.startMonitoring acc env s w =
      (Except.ok StartOutcome.alreadyActive, s, w, false) := by
  simp [ConfigPersister.startMonitoring, h]

/-- C4 witness: the amended theorem at a concrete active-monitor state. -/
theorem C4_witness :
    ConfigPersister.startMonitoring accB okEnv
        { isMonitoring := true, lastWritten := none, writeCount := 3 } w0 =
      (Except.ok StartOutcome.alreadyActive,
        { isMonitoring := true, lastWritten := none, writeCount := 3 }, w0, false) :=
  C4_second_start_is_noop accB okEnv
    { isMonitoring := true, lastWritten := none, writeCount := 3 } w0 rfl

/-! ## C5 — sealing restores the userData redirection on every path -/

/-- C5: both sealing operations (`AccountSwitcher.encryptSessions` and
`ConfigPersister.createEncryptedSessions`) temporarily redirect the
process `userData` to the Windsurf data directory and, on the normal and
the error path alike, hand back a world equal to the input world — the
`userData` path is restored and no other state is touched.  When sealing
succeeds, the output is exactly the encryption of the record's JSON text
under the redirected (Windsurf) context. -/
theorem C5_sealing_restores_userData (sessionsData : Json) (acc : PAccount)
    (sid : String) (encryptFn : String → String → Option (List Nat)) (w : World) :
    (AccountSwitcher.encryptSessions sessionsData encryptFn w).2 = w ∧
    (ConfigPersister.createEncryptedSessions acc sid encryptFn w).2 = w ∧
    (∀ bs, (AccountSwitcher.encryptSessions sessionsData encryptFn w).1 = .ok bs →
      encryptFn (stringifyJson sessionsData) windsurfUserDataPath = some bs) ∧
    (encryptFn (stringifyJson sessionsData) windsurfUserDataPath = none →
      (AccountSwitcher.encryptSessions sessionsData encryptFn w).1 =
        .error "encryptString failed") := by
  refine ⟨?_, ?_, ?_, ?_⟩
  · cases h : encryptFn (stringifyJson sessionsData) windsurfUserDataPath <;>
      simp [AccountSwitcher.encryptSessions, h]
  · cases h : encryptFn (stringifyJson
        (Json.arr [Json.obj
          [("id", Json.str sid),
           ("accessToken", Json.str (if strTruthy acc.idToken then acc.idToken.getD acc.apiKey
             else if strTruthy acc.accessToken then acc.accessToken.getD acc.apiKey
             else acc.apiKey)),
           ("account", Json.obj [("label", Json.str acc.name), ("id", Json.str acc.name)]),
           ("scopes", Json.arr [])]])) windsurfUserDataPath <;>
      simp [ConfigPersister.createEncryptedSessions, h]
  · intro bs h
    cases henc : encryptFn (stringifyJson sessionsData) windsurfUserDataPath with
    | none => simp [AccountSwitcher.encryptSessions, henc] at h
    | some v =>
      simp [AccountSwitcher.encryptSessions, henc] at h
      subst h
      rfl
  · intro h
    simp [AccountSwitcher.encryptSessions, h]

/-! ## C6 — cached credential triple skips the remote calls -/

/-- C6: an account that already carries a complete (truthy) cached
`(apiKey, name, apiServerUrl)` triple makes the credential stage issue no
remote call at all — neither the token-refresh nor the registration
request — and the cached triple is returned unmodified as the credentials
the rest of the switch writes. -/
theorem C6_cached_triple_skips_remote (acc : SAccount) (env : CredEnv)
    (k n u : String)
    (hk : acc.apiKey = some k) (hkne : k ≠ "")
    (hn : acc.name = some n) (hnne : n ≠ "")
    (hu : acc.apiServerUrl = some u) (hune : u ≠ "") :
    AccountSwitcher.acquireCredentials acc env = .ok ((k, n, u), []) := by
  simp [AccountSwitcher.acquireCredentials, strTruthy, hk, hn, hu, hkne, hnne, hune]

/-- An account whose credentials are already cached. -/
def cachedAcc : SAccount :=
  { email := "b@x.com", apiKey := some "key-b", name := some "B",
    apiServerUrl := some "https://srv", refreshToken := none }

/-- A remote environment where every call would fail — the cached path
must never reach it. -/
def deadCredEnv : CredEnv :=
  { tokenResult := .error "network down", registerFn := fun _ => .error "network down" }

/-- C6 witness: with the network dead, the cached account still yields its
own triple and an empty remote-call list. -/
theorem C6_witness :
    AccountSwitcher.acquireCredentials cachedAcc deadCredEnv =
      .ok (("key-b", "B", "https://srv"), []) :=
  C6_cached_triple_skips_remote cachedAcc deadCredEnv "key-b" "B" "https://srv"
    rfl (by decide) rfl (by decide) rfl (by decide)

/-! ## C9 — writeAccountData reports success blind to row-write failures -/

/-- Prefetching Firebase tokens never changes the account's email. -/
theorem prefetchTokens_email (acc : PAccount) (f : Option (String × String)) :
    (prefetchTokens acc f).email = acc.email := by
  unfold prefetchTokens
  split
  · cases f with
    | none => rfl
    | some p => cases p; rfl
  · rfl

/-- Prefetching Firebase tokens never changes the account's name. -/
theorem prefetchTokens_name (acc : PAccount) (f : Option (String × String)) :
    (prefetchTokens acc f).name = acc.name := by
  unfold prefetchTokens
  split
  · cases f with
    | none => rfl
    | some p => cases p; rfl
  · rfl

/-- C9: `writeAccountData` returns `false` exactly when the session
encryption throws; whenever encryption succeeds it returns `true`,
increments `writeCount` and updates `lastWrittenData` — the booleans of
the four row writes are discarded, so even with every row write's I/O
failing (zero rows persisted, store unchanged) the round reports
success. -/
theorem C9_writeAccountData_success_blind (acc : PAccount) (env : WriteEnv)
    (s : PState) (w : World) :
    (∀ e w1, ConfigPersister.createEncryptedSessions (prefetchTokens acc env.firebase)
        env.sessionId env.encryptFn w = (.error e, w1) →
      ConfigPersister.writeAccountData acc env s w = (false, s, w1)) ∧
    (∀ bs w1, ConfigPersister.createEncryptedSessions (prefetchTokens acc env.firebase)
        env.sessionId env.encryptFn w = (.ok bs, w1) →
      (ConfigPersister.writeAccountData acc env s w).1 = true ∧
      (ConfigPersister.writeAccountData acc env s w).2.1.writeCount = s.writeCount + 1 ∧
      (ConfigPersister.writeAccountData acc env s w).2.1.lastWritten =
        some { email := acc.email, name := acc.name }) ∧
    (env.io1 = false → env.io2 = false → env.io3 = false → env.io4 = false →
      ∀ bs w1, ConfigPersister.createEncryptedSessions (prefetchTokens acc env.firebase)
          env.sessionId env.encryptFn w = (.ok bs, w1) →
      (ConfigPersister.writeAccountData acc env s w).1 = true ∧
      (ConfigPersister.writeAccountData acc env s w).2.2 = w1) := by
  refine ⟨?_, ?_, ?_⟩
  · intro e w1 h
    simp [ConfigPersister.writeAccountData, h]
  · intro bs w1 h
    simp [ConfigPersister.writeAccountData, h, prefetchTokens_email, prefetchTokens_name]
  · intro h1 h2 h3 h4 bs w1 h
    simp only [ConfigPersister.writeAccountData, h, h1, h2, h3, h4]
    refine ⟨by trivial, ?_⟩
    cases hdb : w1.db <;>
      simp [ConfigPersister.writeToDatabase, hdb]

example : (ConfigPersister.writeAccountData accB noIoEnv PState.fresh w0).1 = true := rfl
example : (ConfigPersister.writeAccountData accB noIoEnv PState.fresh w0).2.2 = w0 := rfl
example : (ConfigPersister.writeAccountData accB noIoEnv PState.fresh w0).2.1.writeCount = 1 := rfl
example : ConfigPersister.writeAccountData accB encFailEnv PState.fresh w0 =
    (false, PState.fresh, w0) := rfl

/-! ## C10 — getCurrentAccount never throws -/

/-- C10: `getCurrentAccount` is total (every thrown error is caught): it
leaves the store untouched, and returns the parsed Auth Status object
exactly when the store file is readable, the `windsurfAuthStatus` row
exists and its value parses as JSON; in every other case it returns
`null`. -/
theorem C10_getCurrentAccount_total (w : World) :
    (AccountSwitcher.getCurrentAccount w).2 = w ∧
    (∀ j, (AccountSwitcher.getCurrentAccount w).1 = some j ↔
      (∃ rows v, w.db = some rows ∧ lookupRow rows "windsurfAuthStatus" = some v ∧
        parseJson v = some j)) := by
  constructor
  · unfold AccountSwitcher.getCurrentAccount
    cases AccountSwitcher.getCurrentAccountTry w <;> rfl
  · intro j
    unfold AccountSwitcher.getCurrentAccount AccountSwitcher.getCurrentAccountTry
    cases hdb : w.db with
    | none => simp
    | some rows =>
      cases hrow : lookupRow rows "windsurfAuthStatus" with
      | none => simp [hrow]
      | some v =>
        cases hp : parseJson v with
        | none => simp [hrow, hp]
        | some j' => simp [hrow, hp]

/-! ## C8 — the forwarding relay's branches -/

/-- C8: on every POST request the relay's response carries the permissive
CORS header; a missing (or empty) API key, or missing `grant_type` /
`refresh_token`, yields status 400 with an `{error: message}` body and no
upstream call; a request whose JSON body fails to parse, or whose upstream
exchange throws, yields status 500 with the error's message in the body's
`error` field; otherwise the upstream is called once and its JSON body and
status code are passed through verbatim. -/
theorem C8_relay_branches (body : WBody)
    (upstream : Except (String × String) (Nat × Json)) :
    (Worker.handleRequest body upstream).1.corsStar = true ∧
    (∀ gt rt k, Worker.extractParams body = .ok (gt, rt, k) →
      strTruthy k = false →
      Worker.handleRequest body upstream =
        ({ status := 400, body := Json.obj [("error", Json.str "Missing API key")],
           corsStar := true }, false)) ∧
    (∀ gt rt k, Worker.extractParams body = .ok (gt, rt, k) →
      strTruthy k = true → (strTruthy gt = false ∨ strTruthy rt = false) →
      Worker.handleRequest body upstream =
        ({ status := 400,
           body := Json.obj [("error", Json.str "Missing grant_type or refresh_token")],
           corsStar := true }, false)) ∧
    (∀ m st, Worker.extractParams body = .error (m, st) →
      (Worker.handleRequest body upstream).1.status = 500 ∧
      jsonField (Worker.handleRequest body upstream).1.body "error" =
        some (Json.str m) ∧
      (Worker.handleRequest body upstream).2 = false) ∧
    (∀ gt rt k m st, Worker.extractParams body = .ok (gt, rt, k) →
      strTruthy k = true → strTruthy gt = true → strTruthy rt = true →
      upstream = .error (m, st) →
      (Worker.handleRequest body upstream).1.status = 500 ∧
      jsonField (Worker.handleRequest body upstream).1.body "error" =
        some (Json.str m)) ∧
    (∀ gt rt k stt data, Worker.extractParams body = .ok (gt, rt, k) →
      strTruthy k = true → strTruthy gt = true → strTruthy rt = true →
      upstream = .ok (stt, data) →
      Worker.handleRequest body upstream =
        ({ status := stt, body := data, corsStar := true }, true)) := by
  refine ⟨?_, ?_, ?_, ?_, ?_, ?_⟩
  · rcases hx : Worker.extractParams body with ⟨m, st⟩ | ⟨gt, rt, k⟩
    · simp [Worker.handleRequest, hx]
    · cases h1 : strTruthy k <;> cases h2 : strTruthy gt <;> cases h3 : strTruthy rt <;>
        rcases hup : upstream with ⟨m, st⟩ | ⟨stt, data⟩ <;>
        simp [Worker.handleRequest, hx, h1, h2, h3, hup]
  · intro gt rt k hx hk
    simp [Worker.handleRequest, hx, hk]
  · intro gt rt k hx hk hgr
    rcases hgr with hg | hr
    · simp [Worker.handleRequest, hx, hk, hg]
    · cases hg : strTruthy gt <;> simp [Worker.handleRequest, hx, hk, hg, hr]
  · intro m st hx
    simp [Worker.handleRequest, hx, jsonField, List.lookup]
  · intro gt rt k m st hx hk hg hr hup
    simp [Worker.handleRequest, hx, hk, hg, hr, hup, jsonField, List.lookup]
  · intro gt rt k stt data hx hk hg hr hup
    simp [Worker.handleRequest, hx, hk, hg, hr, hup]

example :
    Worker.handleRequest (.formBody none (some "refresh_token") (some "tok"))
        (.ok (200, Json.obj [("id_token", Json.str "t")])) =
      ({ status := 400, body := Json.obj [("error", Json.str "Missing API key")],
         corsStar := true }, false) := rfl

example :
    Worker.handleRequest (.formBody (some "key") (some "refresh_token") (some "tok"))
        (.ok (418, Json.obj [("id_token", Json.str "t")])) =
      ({ status := 418, body := Json.obj [("id_token", Json.str "t")],
         corsStar := true }, true) := rfl

example :
    Worker.handleRequest (.jsonBody (.error ("Unexpected token", "stack")))
        (.ok (200, Json.null)) =
      ({ status := 500,
         body := Json.obj [("error", Json.str "Unexpected token"),
                           ("stack", Json.str "stack")],
         corsStar := true }, false) := rfl

/-! ## C1 — forced-write mode -/

/-- The claim's final-readback predicate: the `windsurfAuthStatus` row can
be read back, parses as JSON, and its `email` field equals the target
email. -/
def readbackEmailMatches (w : World) (email : String) : Bool :=
  match w.db with
  | none => false
  | some rows =>
    match lookupRow rows "windsurfAuthStatus" with
    | none => false
    | some v =>
      match parseJson v with
      | none => false
      | some j => decide (emailOf j = some email)

/-- A JS-null parsed value has no `email` property value. -/
theorem isJsNull_emailOf (j : Json) (h : isJsNull j = true) : emailOf j = none := by
  cases j <;> simp_all [isJsNull, emailOf, jsonField]

/-- The final check of `forceWrite`
(`finalVerify.success && finalVerify.authStatus.email === account.email`)
agrees with the plain readback predicate whenever the remembered
`lastWrittenData` (if any) carries the target email. -/
theorem verify_check_eq_readback (email : String) (s : PState) (w : World)
    (hs : ∀ lw, s.lastWritten = some lw → lw.email = email) :
    ((ConfigPersister.verifyLoginStatus s w).success &&
      (match (ConfigPersister.verifyLoginStatus s w).authStatus with
       | some j => decide (emailOf j = some email)
       | none => false)) = readbackEmailMatches w email := by
  unfold ConfigPersister.verifyLoginStatus readbackEmailMatches
  cases hdb : w.db with
  | none => rfl
  | some rows =>
    cases hrow : lookupRow rows "windsurfAuthStatus" with
    | none => simp [hrow]
    | some v =>
      cases hp : parseJson v with
      | none => simp [hrow, hp]
      | some j =>
        cases hn : isJsNull j with
        | true => simp [hrow, hp, hn, isJsNull_emailOf j hn]
        | false =>
          cases hlw : s.lastWritten with
          | none => simp [hrow, hp, hn, hlw]
          | some lw =>
            have hlw2 := hs lw hlw
            by_cases he : emailOf j = some email
            · simp [hrow, hp, hn, hlw, hlw2, he]
            · simp [hrow, hp, hn, hlw, hlw2, he]

/-- The forced-write loop performs exactly as many `writeAccountData`
calls as it has iterations left, on top of the count already made. -/
theorem forceWriteLoop_count (acc : PAccount) (envs : Nat → WriteEnv) :
    ∀ (n calls : Nat) (s : PState) (w : World),
      (ConfigPersister.forceWriteLoop acc envs n calls s w).1 = calls + n := by
  intro n
  induction n with
  | zero => intro calls s w; simp [ConfigPersister.forceWriteLoop]
  | succ m ih =>
    intro calls s w
    unfold ConfigPersister.forceWriteLoop
    rw [ih]
    omega

/-- One `writeAccountData` round either keeps `lastWrittenData` or sets it
to the written account's email and name. -/
theorem writeAccountData_lastWritten (acc : PAccount) (env : WriteEnv)
    (s : PState) (w : World) :
    (ConfigPersister.writeAccountData acc env s w).2.1.lastWritten = s.lastWritten ∨
    (ConfigPersister.writeAccountData acc env s w).2.1.lastWritten =
      some { email := acc.email, name := acc.name } := by
  simp only [ConfigPersister.writeAccountData]
  rcases h : ConfigPersister.createEncryptedSessions (prefetchTokens acc env.firebase)
      env.sessionId env.encryptFn w with ⟨r, w1⟩
  cases r with
  | error e => simp
  | ok bs => simp [prefetchTokens_email, prefetchTokens_name]

/-- The forced-write loop preserves "`lastWrittenData` is absent or
carries the target email". -/
theorem forceWriteLoop_lastWritten (acc : PAccount) (envs : Nat → WriteEnv) :
    ∀ (n calls : Nat) (s : PState) (w : World),
      (∀ lw, s.lastWritten = some lw → lw.email = acc.email) →
      ∀ lw, (ConfigPersister.forceWriteLoop acc envs n calls s w).2.1.lastWritten = some lw →
        lw.email = acc.email := by
  intro n
  induction n with
  | zero => intro calls s w hs; simpa [ConfigPersister.forceWriteLoop] using hs
  | succ m ih =>
    intro calls s w hs
    unfold ConfigPersister.forceWriteLoop
    apply ih
    intro lw hlw
    rcases writeAccountData_lastWritten acc (envs calls) s w with h | h
    · exact hs lw (h ▸ hlw)
    · rw [h] at hlw
      cases hlw
      rfl

/-- C1: starting from a fresh persister (`lastWrittenData = null`, as at
every call site), `forceWrite(account, N, delay)` invokes the
account-data write sequence exactly `N` times regardless of intermediate
successes or failures, and returns `true` iff the final verification
readback of the `windsurfAuthStatus` row succeeds with an `email` field
equal to the target account's email. -/
theorem C1_forceWrite_exact_and_result (acc : PAccount) (times : Nat)
    (envs : Nat → WriteEnv) (s : PState) (w : World)
    (hs : s.lastWritten = none) :
    (ConfigPersister.forceWrite acc times envs s w).2.1 = times ∧
    ((ConfigPersister.forceWrite acc times envs s w).1 = true ↔
      readbackEmailMatches (ConfigPersister.forceWrite acc times envs s w).2.2.2
        acc.email = true) := by
  have hinv : ∀ lw,
      (ConfigPersister.forceWriteLoop acc envs times 0 s w).2.1.lastWritten = some lw →
      lw.email = acc.email := by
    apply forceWriteLoop_lastWritten
    intro lw hlw
    rw [hs] at hlw
    cases hlw
  constructor
  · simp [ConfigPersister.forceWrite, forceWriteLoop_count]
  · simp only [ConfigPersister.forceWrite]
    rw [verify_check_eq_readback acc.email _ _ hinv]

/-- C1 witness: a concrete two-attempt forced write on an empty store with
everything succeeding. -/
theorem C1_witness :
    (ConfigPersister.forceWrite accB 2 (fun _ => okEnv) PState.fresh w0).2.1 = 2 ∧
    ((ConfigPersister.forceWrite accB 2 (fun _ => okEnv) PState.fresh w0).1 = true ↔
      readbackEmailMatches
        (ConfigPersister.forceWrite accB 2 (fun _ => okEnv) PState.fresh w0).2.2.2
        accB.email = true) :=
  C1_forceWrite_exact_and_result accB 2 (fun _ => okEnv) PState.fresh w0 rfl

example : (ConfigPersister.forceWrite accB 2 (fun _ => okEnv) PState.fresh w0).1 = true := rfl
example : (ConfigPersister.forceWrite accB 2 (fun _ => encFailEnv) PState.fresh w0).1 = false := rfl
example : (ConfigPersister.forceWrite accB 3 (fun _ => encFailEnv) PState.fresh w0).2.1 = 3 := rfl

/-! ## C2 — the monitor loop and its retry budget -/

/-- The external writer's payload: an Auth Status row with a different
email (`a@x.com` instead of the expected `b@x.com`). -/
def foreignAuthRow : String := "\x7b\"email\":\"a@x.com\"\x7d"

/-- A tick where the adversary overwrites the row and the re-write
succeeds. -/
def driftTickOk : TickEnv := { overwrite := some foreignAuthRow, wenv := okEnv }

/-- A tick where the adversary overwrites the row and the re-write fails
(the encryption call throws). -/
def driftTickFail : TickEnv := { overwrite := some foreignAuthRow, wenv := encFailEnv }

/-- The monitor state right after `startMonitoring(accB)` on an empty
store (flag raised, immediate write done, timer armed, closure counter at
zero). -/
def startedMon : MonState :=
  { p := (ConfigPersister.startMonitoring accB okEnv PState.fresh w0).2.1,
    retryCount := 0, active := true }

/-- The world right after that `startMonitoring` call. -/
def startedWorld : World :=
  (ConfigPersister.startMonitoring accB okEnv PState.fresh w0).2.2.1

/-- C2 counterexample: with `maxRetries = 2`, run two consecutive ticks in
each of which the external writer has overwritten the Auth Status row with
a different email and the monitor's re-write succeeds (the final readback
confirms the expected email was restored).  Contrary to the claim, after
`maxRetries` consecutive overwrites the monitor has *not* halted: the
timer is still armed and the consecutive-failure counter is `0`, because
the counter counts failed re-writes, not overwrites. -/
theorem C2_counterexample :
    (ConfigPersister.runTicks accB 2 startedMon startedWorld
        [driftTickOk, driftTickOk]).1.active = true ∧
    (ConfigPersister.runTicks accB 2 startedMon startedWorld
        [driftTickOk, driftTickOk]).1.retryCount = 0 ∧
    readbackEmailMatches
      (ConfigPersister.runTicks accB 2 startedMon startedWorld
        [driftTickOk, driftTickOk]).2 "b@x.com" = true := by
  refine ⟨rfl, rfl, rfl⟩

/-- A `writeAccountData` round whose encryption capability always throws
fails and changes nothing. -/
theorem writeAccountData_encrypt_throws (acc : PAccount) (env : WriteEnv)
    (s : PState) (w : World) (h : ∀ pl c, env.encryptFn pl c = none) :
    ConfigPersister.writeAccountData acc env s w = (false, s, w) := by
  simp [ConfigPersister.writeAccountData, ConfigPersister.createEncryptedSessions, h]

/-- Ticks on a stopped monitor change its state no further. -/
theorem runTicks_inactive (acc : PAccount) (mr : Nat) :
    ∀ (ticks : List TickEnv) (ms : MonState) (w : World), ms.active = false →
      (ConfigPersister.runTicks acc mr ms w ticks).1 = ms := by
  intro ticks
  induction ticks with
  | nil => intro ms w h; rfl
  | cons env rest ih =>
    intro ms w h
    have htick : ConfigPersister.monitorTick acc mr ms w env =
        (ms, applyOverwrite env.overwrite w) := by
      simp [ConfigPersister.monitorTick, h]
    unfold ConfigPersister.runTicks
    rw [htick]
    exact ih ms _ h

/-- Retry exhaustion: from an armed monitor with failure counter `c < mr`,
a run of ticks in each of which the overwritten row shows drift and the
re-write throws stops the monitor as soon as the counter reaches `mr`. -/
theorem runTicks_all_fail_halts (acc : PAccount) (mr : Nat) :
    ∀ (ticks : List TickEnv) (ms : MonState) (w : World),
      ms.active = true → ms.retryCount < mr →
      mr ≤ ms.retryCount + ticks.length →
      (∀ env ∈ ticks, ∀ pl c, env.wenv.encryptFn pl c = none) →
      (∀ env ∈ ticks, ∀ p w',
        ConfigPersister.driftCond acc p (applyOverwrite env.overwrite w') = true) →
      (ConfigPersister.runTicks acc mr ms w ticks).1.active = false := by
  intro ticks
  induction ticks with
  | nil =>
    intro ms w hact hlt hle _ _
    simp only [List.length_nil, Nat.add_zero] at hle
    omega
  | cons env rest ih =>
    intro ms w hact hlt hle henc hdrift
    have hwfail := writeAccountData_encrypt_throws acc env.wenv ms.p
      (applyOverwrite env.overwrite w) (henc env (List.mem_cons_self env rest))
    have hd := hdrift env (List.mem_cons_self env rest) ms.p w
    simp only [ConfigPersister.runTicks]
    by_cases hge : ms.retryCount + 1 ≥ mr
    · have h1 : (ConfigPersister.monitorTick acc mr ms w env).1.active = false := by
        simp [ConfigPersister.monitorTick, hact, hd, hwfail, hge,
          ConfigPersister.stopMonitoring]
      rw [runTicks_inactive acc mr rest _ _ h1]
      exact h1
    · have h2 : (ConfigPersister.monitorTick acc mr ms w env).1 =
          { p := ms.p, retryCount := ms.retryCount + 1, active := true } := by
        simp [ConfigPersister.monitorTick, hact, hd, hwfail, hge]
      rw [h2]
      refine ih _ _ rfl ?_ ?_ ?_ ?_
      · show ms.retryCount + 1 < mr
        omega
      · show mr ≤ ms.retryCount + 1 + rest.length
        simp only [List.length_cons] at hle
        omega
      · intro e he pl c
        exact henc e (List.mem_cons_of_mem env he) pl c
      · intro e he p w'
        exact hdrift e (List.mem_cons_of_mem env he) p w'

/-- C2 amended: the monitor detects drift each tick and re-runs the write
sequence, but its consecutive-failure counter counts failed re-writes
only: a successful repair resets it to `0` and the loop keeps running, so
external overwrites alone never exhaust the retry budget.  Only
`maxRetries` consecutive ticks whose re-write itself fails stop the loop —
by clearing the timer and the `isMonitoring` flag, a silent stop rather
than a reported `RetryBudgetExhausted` error — after which ticks make no
further attempts. -/
theorem C2_monitor_retry_semantics (acc : PAccount) (mr : Nat) :
    (∀ ms w env, ms.active = true →
      ConfigPersister.driftCond acc ms.p (applyOverwrite env.overwrite w) = true →
      (ConfigPersister.writeAccountData acc env.wenv ms.p
          (applyOverwrite env.overwrite w)).1 = true →
      (ConfigPersister.monitorTick acc mr ms w env).1.retryCount = 0 ∧
      (ConfigPersister.monitorTick acc mr ms w env).1.active = true) ∧
    (∀ ms w env, ms.active = true →
      ConfigPersister.driftCond acc ms.p (applyOverwrite env.overwrite w) = true →
      (ConfigPersister.writeAccountData acc env.wenv ms.p
          (applyOverwrite env.overwrite w)).1 = false →
      (ConfigPersister.monitorTick acc mr ms w env).1.retryCount = ms.retryCount + 1 ∧
      (ConfigPersister.monitorTick acc mr ms w env).1.active =
        decide (ms.retryCount + 1 < mr) ∧
      (mr ≤ ms.retryCount + 1 →
        (ConfigPersister.monitorTick acc mr ms w env).1.p.isMonitoring = false)) ∧
    (∀ ms w env, ms.active = false →
      (ConfigPersister.monitorTick acc mr ms w env).1 = ms) ∧
    (∀ (ticks : List TickEnv) (ms : MonState) (w : World),
      ms.active = true → ms.retryCount = 0 → ticks.length = mr → 0 < mr →
      (∀ env ∈ ticks, ∀ pl c, env.wenv.encryptFn pl c = none) →
      (∀ env ∈ ticks, ∀ p w',
        ConfigPersister.driftCond acc p (applyOverwrite env.overwrite w') = true) →
      (ConfigPersister.runTicks acc mr ms w ticks).1.active = false) := by
  refine ⟨?_, ?_, ?_, ?_⟩
  · intro ms w env hact hdrift hwrite
    simp [ConfigPersister.monitorTick, hact, hdrift, hwrite]
  · intro ms w env hact hdrift hwrite
    by_cases hge : ms.retryCount + 1 ≥ mr
    · have hnd : ¬ (ms.retryCount + 1 < mr) := by omega
      simp [ConfigPersister.monitorTick, hact, hdrift, hwrite, hge,
        ConfigPersister.stopMonitoring, hnd]
    · have hd : ms.retryCount + 1 < mr := by omega
      simp [ConfigPersister.monitorTick, hact, hdrift, hwrite, hge, hd]
  · intro ms w env hinact
    simp [ConfigPersister.monitorTick, hinact]
  · intro ticks ms w hact hrc hlen hmr henc hdrift
    exact runTicks_all_fail_halts acc mr ticks ms w hact (by omega) (by omega) henc hdrift

example :
    (ConfigPersister.runTicks accB 2 startedMon startedWorld
        [driftTickFail, driftTickFail]).1.active = false := rfl

example :
    (ConfigPersister.runTicks accB 3 startedMon startedWorld
        [driftTickFail, driftTickOk, driftTickFail]).1.retryCount = 1 := rfl
